import Mathlib

/-!
Verification development for the reminder-specification parser of the SAM
bot (`bot/remindme/parser.py`).

The parser is embedded shallowly:

* strings are `List Char` (`Str`), with Python's `str.strip`, `str.split`,
  `str.startswith`, `str.count`, `str.find`/`str.rfind` translated to
  executable list functions;
* `datetime.datetime` values are integers counting microseconds since
  1970-01-01 00:00:00 (`dayOf`/`todOf` recover `datetime.date()` and
  `datetime.time()`; both orders agree with the lexicographic order used by
  Python's datetime comparisons);
* `ReminderParseError` and the `ValueError`s that can escape the parser are
  constructors of an explicit error type `Err`, and every fallible function
  returns `Except Err`;
* the date/time regular expressions of `REGEXES_DATE` / `REGEXES_TIME` are
  translated pattern by pattern into prefix matchers with the same greedy,
  backtracking semantics, and `datetime.strptime` for the finitely many
  format strings in use is translated into per-format validating parsers;
* numeric duration values (Python `float(...)`) are modelled as decimal
  rationals; the exotic float spellings (exponents, `inf`, `nan`,
  underscores) and sub-microsecond rounding are outside every behaviour
  exercised here.
-/

namespace SAM

abbrev Str := List Char

/-- Python `str.lstrip()` (whitespace variant). -/
def pyLstrip (s : Str) : Str := s.dropWhile Char.isWhitespace

/-- Python `str.rstrip()` (whitespace variant). -/
def pyRstrip (s : Str) : Str := (s.reverse.dropWhile Char.isWhitespace).reverse

/-- Python `str.strip()` (whitespace variant). -/
def pyStrip (s : Str) : Str := pyRstrip (pyLstrip s)

/-- Helper for `pySplit`: accumulates the current token. -/
def pySplitAux : Str → Str → List Str
  | [], acc => if acc = [] then [] else [acc]
  | c :: rest, acc =>
    if c.isWhitespace then
      if acc = [] then pySplitAux rest [] else acc :: pySplitAux rest []
    else
      pySplitAux rest (acc ++ [c])

/-- Python `str.split()` with no arguments: split on runs of whitespace,
dropping empty pieces. -/
def pySplit (s : Str) : List Str := pySplitAux s []

/-- Python `str.split(maxsplit=2)`: at most two whitespace splits; the
remainder keeps its trailing text verbatim (leading separator whitespace is
consumed). -/
def pySplitMax2 (s : Str) : List Str :=
  let t1 := s.dropWhile Char.isWhitespace
  if t1 = [] then []
  else
    let v := t1.takeWhile (fun c => !c.isWhitespace)
    let r1 := (t1.dropWhile (fun c => !c.isWhitespace)).dropWhile Char.isWhitespace
    if r1 = [] then [v]
    else
      let k := r1.takeWhile (fun c => !c.isWhitespace)
      let r2 := (r1.dropWhile (fun c => !c.isWhitespace)).dropWhile Char.isWhitespace
      if r2 = [] then [v, k] else [v, k, r2]

/-- Python `str.lower()` restricted to the ASCII range (all keyword tables
of the parser are ASCII-lowercase except for a German umlaut that is already
lowercase wherever it appears). -/
def pyLower (s : Str) : Str := s.map Char.toLower

/-! ## Calendar arithmetic

Dates are day numbers relative to 1970-01-01 (the standard civil-from-days /
days-from-civil algorithms). Instants are microseconds since that epoch. -/

def usPerDay : ℤ := 86400000000

def usPerMinute : ℤ := 60000000

/-- `datetime.date()` of an instant. -/
def dayOf (dt : ℤ) : ℤ := dt.ediv usPerDay

/-- `datetime.time()` of an instant, as microseconds since midnight. -/
def todOf (dt : ℤ) : ℤ := dt.emod usPerDay

def isLeap (y : ℤ) : Bool := y % 4 = 0 && (y % 100 ≠ 0 || y % 400 = 0)

def daysInMonth (y m : ℤ) : ℤ :=
  if m = 2 then (if isLeap y then 29 else 28)
  else if m = 4 ∨ m = 6 ∨ m = 9 ∨ m = 11 then 30
  else 31

/-- Day number of a civil date (1970-01-01 is day 0). -/
def daysFromCivil (y m d : ℤ) : ℤ :=
  let y1 := if m ≤ 2 then y - 1 else y
  let era := y1.ediv 400
  let yoe := y1 - era * 400
  let mp := (m + 9).emod 12
  let doy := (153 * mp + 2).ediv 5 + d - 1
  let doe := yoe * 365 + yoe.ediv 4 - yoe.ediv 100 + doy
  era * 146097 + doe - 719468

/-- Civil date `(year, month, day)` of a day number. -/
def civilFromDays (z0 : ℤ) : ℤ × ℤ × ℤ :=
  let z := z0 + 719468
  let era := z.ediv 146097
  let doe := z - era * 146097
  let yoe := (doe - doe.ediv 1460 + doe.ediv 36524 - doe.ediv 146096).ediv 365
  let y := yoe + era * 400
  let doy := doe - (365 * yoe + yoe.ediv 4 - yoe.ediv 100)
  let mp := (5 * doy + 2).ediv 153
  let d := doy - (153 * mp + 2).ediv 5 + 1
  let m := if mp < 10 then mp + 3 else mp - 9
  (if m ≤ 2 then y + 1 else y, m, d)

/-- Builds an instant from a civil date and a wall-clock hour/minute. -/
def mkDT (y m d h mi : ℤ) : ℤ :=
  daysFromCivil y m d * usPerDay + (h * 60 + mi) * usPerMinute

/-- Validating constructor used by the `strptime` models: Python
`datetime.date(y, m, d)` raises `ValueError` outside these bounds. -/
def mkDate (y m d : ℤ) : Option ℤ :=
  if 1 ≤ y ∧ y ≤ 9999 ∧ 1 ≤ m ∧ m ≤ 12 ∧ 1 ≤ d ∧ d ≤ daysInMonth y m then
    some (daysFromCivil y m d)
  else none

/-! ## Errors

`ReminderParseError` instances (distinguished by their message / payload) and
the `ValueError`/`TypeError` exceptions that can escape the parser. -/

inductive Err where
  /-- `parse`: "Erinnerung ist nicht lesbar." (line 182). -/
  | unreadable : Err
  /-- `parse`: "Unlesbares Argument gefunden: ..." (line 187). -/
  | unreadableArg : Str → Err
  /-- `parse`: "Deine Erinnerung muss eine Nachricht enthalten." (line 189). -/
  | mustContainMessage : Err
  /-- `parse_reminder_message`: invalid argument after the quoted text
  (line 253). -/
  | trailingAfterQuote : Str → Err
  /-- `parse_reminder_message`: message not correctly quoted (line 261). -/
  | notQuoted : Str → Err
  /-- `parse_timestamp`: timestamp holds a date although only a time is
  expected (lines 358 and 408, identical message). -/
  | dateInTimeOnly : Err
  /-- `parse_timestamp`: timestamp holds a time although only a date is
  expected (line 375). -/
  | timeInDateOnly : Err
  /-- `parse_timestamp`: the date cannot lie in the past (line 366). -/
  | dateInPast : Err
  /-- `parse_timestamp`: the date may not lie in the past (line 418; the
  wording differs from line 366, hence a distinct constructor). -/
  | dateInPastB : Err
  /-- `parse_timestamp`: the time may not lie in the past (lines 382, 423). -/
  | timeInPast : Err
  /-- `parse_timestamp`: a date without time must lie strictly in the
  future (line 390). -/
  | dateNotFuture : Err
  /-- `parse_duration` strict mode: odd token count (line 587). -/
  | invalidTimeSpec : Str → Err
  /-- A single queued duplicate-unit `ReminderParseError`, carrying its
  `(value, keyword)` pair as `args[1]` (lines 596-601, 648-654, 712). -/
  | duplicateOne : Str → Str → Err
  /-- The combined duplicate-unit error listing every queued pair
  (lines 706-710). -/
  | duplicates : List (Str × Str) → Err
  /-- The combined error raised when an accepted pair follows a pending
  error while duplicates are queued (lines 664-679): the pending error plus
  the queued pairs. -/
  | prevWithDuplicates : Err → List (Str × Str) → Err
  /-- `_parse_duration_value`: value is not convertible to a number
  (line 741). -/
  | notANumber : Str → Err
  /-- `_parse_duration_keyword`: keyword is not a valid duration
  (line 771). -/
  | invalidKeyword : Str → Err
  /-- A `ValueError`/`TypeError` escaping `datetime.strptime` or
  `relativedelta` (these are not `ReminderParseError`s but do abort the
  parse). -/
  | pyValueError : Err
deriving DecidableEq

/-- The `(value, keyword)` pairs a duplicate-unit error references
(`error.args[1]` of each queued error). -/
def Err.refPairs : Err → List (Str × Str)
  | .duplicateOne v k => [(v, k)]
  | .duplicates l => l
  | .prevWithDuplicates _ l => l
  | _ => []

/-! ## Keyword tables (`TOMORROW_KEYWORDS`, `PART_OF_DAY_KEYWORDS`,
`DURATION_KEYWORDS`), in the source's iteration order. -/

def TOMORROW_KEYWORDS : List Str := ["tomorrow".data, "morgen".data]

/-- `PART_OF_DAY_KEYWORDS`: each `datetime.time` value is microseconds since
midnight. -/
def PART_OF_DAY_KEYWORDS : List (ℤ × List Str) :=
  [(5 * 3600000000, ["dawn".data, "tagesanbruch".data]),
   (7 * 3600000000, ["morning".data, "früh".data, "frueh".data]),
   (10 * 3600000000, ["forenoon".data, "vormittag".data]),
   (12 * 3600000000, ["noon".data, "midday".data, "lunchtime".data, "mittag".data]),
   (14 * 3600000000, ["afternoon".data, "nachmittag".data]),
   (16 * 3600000000, ["teatime".data, "teezeit".data]),
   (18 * 3600000000, ["evening".data, "abend".data]),
   (22 * 3600000000, ["night".data, "nacht".data]),
   (0, ["midnight".data, "mitternacht".data])]

/-- The `relativedelta` parameter names that key `DURATION_KEYWORDS`. -/
inductive DKey where
  | years | months | weeks | days | hours | minutes
deriving DecidableEq

def DURATION_KEYWORDS : List (DKey × List Str) :=
  [(.years, ["y".data, "years".data, "year".data, "jahre".data, "jahr".data]),
   (.months, ["m".data, "months".data, "month".data, "monate".data, "monat".data]),
   (.weeks, ["w".data, "weeks".data, "week".data, "wochen".data, "woche".data]),
   (.days, ["d".data, "days".data, "day".data, "tage".data, "tag".data]),
   (.hours, ["h".data, "hours".data, "hour".data, "stunden".data, "stunde".data]),
   (.minutes, ["min".data, "minutes".data, "minute".data, "minuten".data])]

/-! ## Quoted-message extractor (`parse_reminder_message`, lines 208-264). -/

/-- `parse_reminder_message`: splits the raw text into the time
specification and the quoted reminder message, if any. -/
def parse_reminder_message (text : Str) : Except Err (Str × Str) :=
  let t := pyStrip text
  let qc := t.count '"'
  if qc = 0 then .ok (text, [])
  else if 2 ≤ qc then
    let i := t.findIdx (· == '"')
    let j := t.length - 1 - t.reverse.findIdx (· == '"')
    let timeSpec := pyStrip (t.take i)
    let message := (t.drop (i + 1)).take (j - (i + 1))
    let remainder := pyStrip (t.drop (j + 1))
    if remainder ≠ [] then .error (.trailingAfterQuote remainder)
    else .ok (timeSpec, message)
  else .error (.notQuoted t)

/-! ## Part-of-day resolver (`parse_day_part`, lines 267-314). -/

/-- The source's nested `for time_, keywords ... for keyword ...` scan: the
first keyword, in table iteration order, that prefix-matches `txt` wins. -/
def findFirstKeyword : List (ℤ × List Str) → Str → Option (ℤ × Str)
  | [], _ => none
  | (t, kws) :: rest, txt =>
    match kws.find? (fun k => k.isPrefixOf txt) with
    | some k => some (t, k)
    | none => findFirstKeyword rest txt

/-- `parse_day_part`: match a part-of-day keyword at the start of the
(lower-cased) text and resolve its calendar date. -/
def parse_day_part (text : Str) (isTom : Bool) (refDt : ℤ) : Option (ℤ × Str) :=
  let t := pyLstrip text
  match findFirstKeyword PART_OF_DAY_KEYWORDS (pyLower t) with
  | some (time1, kw) =>
    let date1 :=
      if isTom = true ∧ time1 = 0 then dayOf refDt + 2
      else if isTom = true ∨ time1 ≤ todOf refDt then dayOf refDt + 1
      else dayOf refDt
    some (date1 * usPerDay + time1, pyLstrip (t.drop kw.length))
  | none => none

/-! ## Timestamp resolver (`parse_timestamp` and the pattern tables,
lines 52-101 and 317-528).

Each regular expression of `REGEXES_DATE` / `REGEXES_TIME` is translated
into a prefix matcher returning the length of the (greedy, backtracking)
match at the start of the text, combinator by combinator:
`dDigit` is `\d`, `dLit c` a literal character, `dAny` is `.`, `dSet` a
character class, and `dOpt2 cs` is `[cs]?\d` (two digits preferred,
backtracking to one). -/

def dEnd : Str → Option ℕ := fun _ => some 0

def dDigit (k : Str → Option ℕ) : Str → Option ℕ := fun s =>
  match s with
  | c :: r => if c.isDigit then (k r).map (· + 1) else none
  | [] => none

def dLit (c : Char) (k : Str → Option ℕ) : Str → Option ℕ := fun s =>
  match s with
  | a :: r => if a = c then (k r).map (· + 1) else none
  | [] => none

def dAny (k : Str → Option ℕ) : Str → Option ℕ := fun s =>
  match s with
  | _ :: r => (k r).map (· + 1)
  | [] => none

def dSet (cs : List Char) (k : Str → Option ℕ) : Str → Option ℕ := fun s =>
  match s with
  | a :: r => if cs.contains a then (k r).map (· + 1) else none
  | [] => none

/-- `[cs]?\d` followed by `k`: try the two-digit reading first, and fall
back to a single digit when the two-digit reading (or its continuation)
fails, exactly as the greedy regex engine does. -/
def dOpt2 (cs : List Char) (k : Str → Option ℕ) : Str → Option ℕ := fun s =>
  match (match s with
         | a :: b :: r =>
           if cs.contains a && b.isDigit then (k r).map (· + 2) else none
         | _ => none) with
  | some n => some n
  | none => dDigit k s

/-- `(AM|PM)` on already lower-cased text. -/
def dAmPm (k : Str → Option ℕ) : Str → Option ℕ := fun s =>
  match s with
  | a :: 'm' :: r => if a = 'a' || a = 'p' then (k r).map (· + 2) else none
  | _ => none

/-- Does `[ ]?(AM|PM)` match here (on lower-cased text)? Used by the
negative lookahead of the 24-hour time pattern. -/
def looksLikeAmPm (s : Str) : Bool :=
  let direct := match s with
    | a :: 'm' :: _ => a = 'a' || a = 'p'
    | _ => false
  let spaced := match s with
    | ' ' :: a :: 'm' :: _ => a = 'a' || a = 'p'
    | _ => false
  direct || spaced

/-- `(?![ ]?(AM|PM))`. -/
def dNoAmPm (k : Str → Option ℕ) : Str → Option ℕ := fun s =>
  if looksLikeAmPm s then none else k s

/-- The format strings paired with the date patterns, in table order. -/
inductive DFmt where
  | Ymd | y2md | md | dmY | dmy2 | dm | mdY | mdy2 | mdUS
deriving DecidableEq

/-- The format strings paired with the time patterns. -/
inductive TFmt where
  | IMsp | IMnp | HM
deriving DecidableEq

def digits01 : List Char := ['0', '1']
def digits0123 : List Char := ['0', '1', '2', '3']
def digits012 : List Char := ['0', '1', '2']
def digits054 : List Char := ['0', '1', '2', '3', '4', '5']

/-- `PATTERNS_DATE`, in order, as (matcher, format) pairs. -/
def PATTERNS_DATE : List ((Str → Option ℕ) × DFmt) :=
  [(dDigit (dDigit (dDigit (dDigit (dLit '-' (dOpt2 digits01 (dLit '-' (dOpt2 digits0123 dEnd))))))), .Ymd),
   (dDigit (dDigit (dLit '-' (dOpt2 digits01 (dLit '-' (dOpt2 digits0123 dEnd))))), .y2md),
   (dOpt2 digits01 (dLit '-' (dOpt2 digits0123 dEnd)), .md),
   (dOpt2 digits0123 (dLit '.' (dOpt2 digits01 (dLit '.' (dDigit (dDigit (dDigit (dDigit dEnd))))))), .dmY),
   (dOpt2 digits0123 (dLit '.' (dOpt2 digits01 (dLit '.' (dDigit (dDigit dEnd))))), .dmy2),
   (dOpt2 digits0123 (dLit '.' (dOpt2 digits01 (dAny dEnd))), .dm),
   (dOpt2 digits01 (dLit '/' (dOpt2 digits0123 (dLit '/' (dDigit (dDigit (dDigit (dDigit dEnd))))))), .mdY),
   (dOpt2 digits01 (dLit '/' (dOpt2 digits0123 (dLit '/' (dDigit (dDigit dEnd))))), .mdy2),
   (dOpt2 digits01 (dLit '/' (dOpt2 digits0123 dEnd)), .mdUS)]

/-- `PATTERNS_TIME`, in order. -/
def PATTERNS_TIME : List ((Str → Option ℕ) × TFmt) :=
  [(dOpt2 digits012 (dLit ':' (dSet digits054 (dDigit (dLit ' ' (dAmPm dEnd))))), .IMsp),
   (dOpt2 digits012 (dLit ':' (dSet digits054 (dDigit (dAmPm dEnd)))), .IMnp),
   (dOpt2 digits012 (dLit ':' (dSet digits054 (dDigit (dNoAmPm dEnd)))), .HM)]

/-- Try the patterns in order; the first match wins and returns the matched
prefix of the text (`match["date"]` / `match["time"]` spans the whole
match for every pattern in the tables). -/
def firstPattern {F : Type} : List ((Str → Option ℕ) × F) → Str → Option (Str × F)
  | [], _ => none
  | (p, f) :: rest, t =>
    match p t with
    | some n => some (t.take n, f)
    | none => firstPattern rest t

/-- `_match_timestamp_date` (lines 440-466). -/
def matchTsDate (text : Str) : Option (Str × DFmt) :=
  firstPattern PATTERNS_DATE (pyStrip text)

/-- `_match_timestamp_time` (lines 469-501), including the `24:00`
special case. -/
def matchTsTime (text : Str) : Option (Str × TFmt) :=
  let t0 := pyLower (pyStrip text)
  let t := if ("24:00".data).isPrefixOf t0 then "00:00".data ++ t0.drop 5 else t0
  firstPattern PATTERNS_TIME t

/-! ### `strptime` models

`datetime.strptime` is modelled per format string actually in use. Numeric
fields read one or two digits greedily and are then validated by value;
for the regex-gated strings these matchers receive, this accepts and
rejects exactly the strings `strptime` does (any difference in *where* a
malformed string fails still ends in the same `ValueError`). -/

def charVal (c : Char) : ℕ := c.toNat - 48

/-- Read one or two digits (two preferred), returning the value and rest. -/
def readN2 (s : Str) : Option (ℕ × Str) :=
  match s with
  | a :: b :: r =>
    if a.isDigit then
      if b.isDigit then some (charVal a * 10 + charVal b, r)
      else some (charVal a, b :: r)
    else none
  | [a] => if a.isDigit then some (charVal a, []) else none
  | [] => none

/-- Read exactly four digits. -/
def read4 (s : Str) : Option (ℕ × Str) :=
  match s with
  | a :: b :: c :: d :: r =>
    if a.isDigit && b.isDigit && c.isDigit && d.isDigit then
      some (((charVal a * 10 + charVal b) * 10 + charVal c) * 10 + charVal d, r)
    else none
  | _ => none

/-- Read exactly two digits. -/
def read2 (s : Str) : Option (ℕ × Str) :=
  match s with
  | a :: b :: r => if a.isDigit && b.isDigit then some (charVal a * 10 + charVal b, r) else none
  | _ => none

/-- `%y`: two-digit years 00-68 are 2000-2068, 69-99 are 1969-1999. -/
def y2map (y : ℕ) : ℤ := if y ≤ 68 then 2000 + (y : ℤ) else 1900 + (y : ℤ)

/-- Validating time-of-day constructor: `%H ≤ 23`, `%M ≤ 59`, result in
microseconds since midnight. -/
def mkTod (h m : ℕ) : Option ℤ :=
  if h ≤ 23 ∧ m ≤ 59 then some (((h * 60 + m : ℕ) : ℤ) * usPerMinute) else none

/-- The tail of the 12-hour-clock parse: the meridian characters, hour
validation (1-12) and conversion to the 24-hour clock. -/
def read12core (i m : ℕ) (rest : Str) : Option ℤ :=
  match rest with
  | a :: 'm' :: [] =>
    if 1 ≤ i ∧ i ≤ 12 then
      if a = 'p' then mkTod (if i = 12 then 12 else i + 12) m
      else if a = 'a' then mkTod (if i = 12 then 0 else i) m
      else none
    else none
  | _ => none

/-- `%I:%M %p` / `%I:%M%p`: the hour must be 1-12 and is converted to the
24-hour clock by the meridian. -/
def read12 (s : Str) (spaced : Bool) : Option ℤ :=
  match readN2 s with
  | some (i, ':' :: r1) =>
    match read2 r1 with
    | some (m, r2) =>
      if spaced then
        match r2 with
        | ' ' :: r => read12core i m r
        | _ => none
      else read12core i m r2
    | none => none
  | _ => none

/-- `strptime` for the three time formats, producing microseconds since
midnight. -/
def strptimeTime (f : TFmt) (s : Str) : Option ℤ :=
  match f with
  | .HM =>
    match readN2 s with
    | some (h, ':' :: r1) =>
      match read2 r1 with
      | some (m, []) => mkTod h m
      | _ => none
    | _ => none
  | .IMsp => read12 s true
  | .IMnp => read12 s false

/-- `strptime` for the nine date formats (after `_normalize_date_str`,
which appends the reference year to the year-less formats: modelled by
passing `refY` straight to `mkDate`), producing a day number. -/
def strptimeDate (f : DFmt) (s : Str) (refY : ℤ) : Option ℤ :=
  match f with
  | .Ymd =>
    match read4 s with
    | some (y, '-' :: r1) =>
      match readN2 r1 with
      | some (m, '-' :: r2) =>
        match readN2 r2 with
        | some (d, []) => mkDate (y : ℤ) (m : ℤ) (d : ℤ)
        | _ => none
      | _ => none
    | _ => none
  | .y2md =>
    match read2 s with
    | some (y, '-' :: r1) =>
      match readN2 r1 with
      | some (m, '-' :: r2) =>
        match readN2 r2 with
        | some (d, []) => mkDate (y2map y) (m : ℤ) (d : ℤ)
        | _ => none
      | _ => none
    | _ => none
  | .md =>
    match readN2 s with
    | some (m, '-' :: r1) =>
      match readN2 r1 with
      | some (d, []) => mkDate refY (m : ℤ) (d : ℤ)
      | _ => none
    | _ => none
  | .dmY =>
    match readN2 s with
    | some (d, '.' :: r1) =>
      match readN2 r1 with
      | some (m, '.' :: r2) =>
        match read4 r2 with
        | some (y, []) => mkDate (y : ℤ) (m : ℤ) (d : ℤ)
        | _ => none
      | _ => none
    | _ => none
  | .dmy2 =>
    match readN2 s with
    | some (d, '.' :: r1) =>
      match readN2 r1 with
      | some (m, '.' :: r2) =>
        match read2 r2 with
        | some (y, []) => mkDate (y2map y) (m : ℤ) (d : ℤ)
        | _ => none
      | _ => none
    | _ => none
  | .dm =>
    match readN2 s with
    | some (d, '.' :: r1) =>
      match readN2 r1 with
      | some (m, '.' :: []) => mkDate refY (m : ℤ) (d : ℤ)
      | _ => none
    | _ => none
  | .mdY =>
    match readN2 s with
    | some (m, '/' :: r1) =>
      match readN2 r1 with
      | some (d, '/' :: r2) =>
        match read4 r2 with
        | some (y, []) => mkDate (y : ℤ) (m : ℤ) (d : ℤ)
        | _ => none
      | _ => none
    | _ => none
  | .mdy2 =>
    match readN2 s with
    | some (m, '/' :: r1) =>
      match readN2 r1 with
      | some (d, '/' :: r2) =>
        match read2 r2 with
        | some (y, []) => mkDate (y2map y) (m : ℤ) (d : ℤ)
        | _ => none
      | _ => none
    | _ => none
  | .mdUS =>
    match readN2 s with
    | some (m, '/' :: r1) =>
      match readN2 r1 with
      | some (d, []) => mkDate refY (m : ℤ) (d : ℤ)
      | _ => none
    | _ => none

/-- `ref_dt.strftime(" %Y")`, used by `_normalize_date_str`: the reference
year. -/
def refYear (refDt : ℤ) : ℤ := (civilFromDays (dayOf refDt)).1

inductive Mode where
  | time | date | datetime
deriving DecidableEq

def nineAM : ℤ := 9 * 3600000000

/-- `parse_timestamp` (lines 317-437). -/
def parse_timestamp (text0 : Str) (mode : Mode) (refDt : ℤ) :
    Except Err (Option (ℤ × Str)) :=
  let text := pyStrip text0
  match matchTsDate text with
  | some (dStr, dFmt) =>
    if mode = .time then .error .dateInTimeOnly
    else
      match strptimeDate dFmt dStr (refYear refDt) with
      | none => .error .pyValueError
      | some date1 =>
        if date1 < dayOf refDt then .error .dateInPast
        else
          let textA := pyLstrip (text.drop dStr.length)
          match matchTsTime textA with
          | some (tStr, tFmt) =>
            if mode ≠ .datetime then .error .timeInDateOnly
            else
              match strptimeTime tFmt tStr with
              | none => .error .pyValueError
              | some time1 =>
                if time1 ≤ todOf refDt ∧ date1 = dayOf refDt then .error .timeInPast
                else .ok (some (date1 * usPerDay + time1, pyLstrip (textA.drop tStr.length)))
          | none =>
            if ¬ dayOf refDt < date1 then .error .dateNotFuture
            else .ok (some (date1 * usPerDay + nineAM, textA))
  | none =>
    match matchTsTime text with
    | some (tStr, tFmt) =>
      match strptimeTime tFmt tStr with
      | none => .error .pyValueError
      | some time1 =>
        let textB := pyLstrip (text.drop tStr.length)
        match matchTsDate textB with
        | some (dStr, dFmt) =>
          if mode ≠ .datetime then .error .dateInTimeOnly
          else
            match strptimeDate dFmt dStr (refYear refDt) with
            | none => .error .pyValueError
            | some date1 =>
              if date1 < dayOf refDt then .error .dateInPastB
              else if time1 ≤ todOf refDt ∧ date1 = dayOf refDt then .error .timeInPast
              else .ok (some (date1 * usPerDay + time1, pyLstrip (textB.drop dStr.length)))
        | none =>
          if time1 ≤ todOf refDt then .ok (some ((dayOf refDt + 1) * usPerDay + time1, textB))
          else .ok (some (dayOf refDt * usPerDay + time1, textB))
    | none => .ok none

/-! ## Duration resolver (`parse_duration` and helpers, lines 531-791). -/

def digitsToNat (ds : List Char) : ℕ := ds.foldl (fun n c => n * 10 + charVal c) 0

/-- A decimal number `num / 10 ^ exp`: the exact value of the decimal
literals accepted by the duration grammar (Python parses them to `float`;
every literal the claims exercise is exactly representable, and only the
number's value ever feeds back into the result). -/
structure Dec where
  num : ℤ
  exp : ℕ
deriving DecidableEq

/-- Python `float(...)` on the decimal spellings the duration grammar
meets: optional sign, integer digits, optional fraction; `"1."` and `".5"`
are accepted like in Python. (Exponents, `inf`, `nan` and underscore
separators are not modelled.) -/
def parseDecimal (s0 : Str) : Option Dec :=
  let s1 := pyStrip s0
  let signed : ℤ × Str := match s1 with
    | '-' :: r => (-1, r)
    | '+' :: r => (1, r)
    | r => (1, r)
  let ip := signed.2.takeWhile Char.isDigit
  let s2 := signed.2.dropWhile Char.isDigit
  match s2 with
  | [] => if ip = [] then none else some ⟨signed.1 * (digitsToNat ip : ℤ), 0⟩
  | '.' :: r =>
    let fp := r.takeWhile Char.isDigit
    let s3 := r.dropWhile Char.isDigit
    if s3 = [] ∧ (ip ≠ [] ∨ fp ≠ []) then
      some ⟨signed.1 * ((digitsToNat ip : ℤ) * (10 : ℤ) ^ fp.length + (digitsToNat fp : ℤ)),
            fp.length⟩
    else none
  | _ => none

/-- `_parse_duration_value` (lines 720-744). -/
def _parse_duration_value (v : Str) : Except Err Dec :=
  match parseDecimal v with
  | some q => .ok q
  | none => .error (.notANumber v)

/-- `_parse_duration_keyword` (lines 747-774). -/
def _parse_duration_keyword (kw : Str) : Except Err DKey :=
  let k := pyLower kw
  match DURATION_KEYWORDS.find? (fun p => p.2.contains k) with
  | some p => .ok p.1
  | none => .error (.invalidKeyword kw)

/-- `duration_spec[parsed_keyword] = parsed_value`: dict assignment,
updating in place when the key exists and appending otherwise. -/
def specInsert (spec : List (DKey × Dec)) (key : DKey) (q : Dec) : List (DKey × Dec) :=
  if spec.any (fun p => decide (p.1 = key)) then
    spec.map (fun p => if p.1 = key then (key, q) else p)
  else spec ++ [(key, q)]

/-- `zip(text_part_iter, text_part_iter)`: consecutive pairs. -/
def strictPairs : List Str → List (Str × Str)
  | v :: k :: rest => (v, k) :: strictPairs rest
  | _ => []

/-- The strict-mode loop (lines 589-605): value and keyword errors are
raised immediately; duplicate keywords are queued. -/
def strictLoop : List (Str × Str) → List (DKey × Dec) → List (Str × Str) →
    Except Err (List (DKey × Dec) × List (Str × Str))
  | [], spec, dups => .ok (spec, dups)
  | (v, kw) :: rest, spec, dups =>
    match _parse_duration_value v with
    | .error e => .error e
    | .ok q =>
      match _parse_duration_keyword kw with
      | .error e => .error e
      | .ok key =>
        if spec.any (fun p => decide (p.1 = key)) then
          strictLoop rest spec (dups ++ [(v, kw)])
        else
          strictLoop rest (spec ++ [(key, q)]) dups

/-- The mutable state of the heuristic token-peeling loop
(lines 607-701). -/
structure HState where
  spec : List (DKey × Dec)
  dups : List (Str × Str)
  valueErr : Option Err
  keywordErr : Option Err
  tokens : List Str
deriving DecidableEq

def initHState : HState := ⟨[], [], none, none, []⟩

/-- What one loop iteration does after updating the state: continue to the
next pair, break out of the loop, or raise. -/
inductive StepRes where
  | cont | stop | raised (e : Err)
deriving DecidableEq

/-- Lines 664-682: an accepted pair following a pending error raises the
pending error, combined with the queued duplicates when any exist. -/
def mkPendingRaise (e : Err) (st : HState) : HState × StepRes :=
  if st.dups = [] then (st, .raised e) else (st, .raised (.prevWithDuplicates e st.dups))

/-- One iteration of the heuristic loop body (lines 635-701) on the front
pair `(v, kw)`. `parsed_value` is truthy only when it is a nonzero number
(Python's `if parsed_value` treats `0.0` like a failed parse). -/
def heurStep (v kw : Str) (st : HState) : HState × StepRes :=
  let prevV := st.valueErr
  let prevK := st.keywordErr
  let pvE : Option Dec × Option Err :=
    match _parse_duration_value v with
    | .ok q => (some q, st.valueErr)
    | .error e => (none, some e)
  let pkE : Option DKey × Option Err × List (Str × Str) :=
    match _parse_duration_keyword kw with
    | .ok key =>
      (some key, st.keywordErr,
       if st.spec.any (fun p => decide (p.1 = key)) then st.dups ++ [(v, kw)] else st.dups)
    | .error e => (none, some e, st.dups)
  let st1 : HState :=
    { st with valueErr := pvE.2, keywordErr := pkE.2.1, dups := pkE.2.2 }
  match pvE.1, pkE.1 with
  | some q, some key =>
    if q.num = 0 then
      if prevV.isSome ∨ prevK.isSome then (st1, .stop) else (st1, .cont)
    else
      match prevV with
      | some e => mkPendingRaise e st1
      | none =>
        match prevK with
        | some e => mkPendingRaise e st1
        | none =>
          ({ st1 with spec := specInsert st1.spec key q, tokens := st1.tokens ++ [v, kw] },
           .cont)
  | some q, none =>
    if q.num = 0 then (st1, .stop)
    else if prevV.isSome ∨ prevK.isSome then (st1, .stop) else (st1, .cont)
  | none, some _ =>
    if prevV.isSome ∨ prevK.isSome then (st1, .stop) else (st1, .cont)
  | none, none => (st1, .stop)

/-- The heuristic `while remainder:` loop (lines 616-701). The fuel is one
more than the remaining length, which strictly dominates the loop count
since every iteration strictly shortens the remainder. -/
def heurLoop : ℕ → Str → HState → Except Err HState
  | 0, _, st => .ok st
  | fuel + 1, remainder, st =>
    if remainder = [] then .ok st
    else
      match pySplitMax2 remainder with
      | [v, kw, rem] =>
        match heurStep v kw st with
        | (st2, .cont) => heurLoop fuel rem st2
        | (st2, .stop) => .ok st2
        | (_, .raised e) => .error e
      | [v, kw] =>
        match heurStep v kw st with
        | (st2, .cont) => heurLoop fuel [] st2
        | (st2, .stop) => .ok st2
        | (_, .raised e) => .error e
      | [v] =>
        match heurStep v [] st with
        | (st2, .cont) => heurLoop fuel [] st2
        | (st2, .stop) => .ok st2
        | (_, .raised e) => .error e
      | _ => .ok st

/-- `_extract_message_after_tokens` (lines 777-791). -/
def extractMessageAfterTokens (text : Str) (tokens : List Str) : Str :=
  tokens.foldl (fun t tok => pyLstrip (t.drop tok.length)) (pyStrip text)

/-- Lines 705-712: the error raised for the queued duplicate pairs. -/
def mkDupError : List (Str × Str) → Err
  | [p] => .duplicateOne p.1 p.2
  | l => .duplicates l

/-- Is the decimal an integer? -/
def Dec.isInt (d : Dec) : Bool := d.num % (10 : ℤ) ^ d.exp = 0

/-- The integer value of an integral decimal. -/
def Dec.toInt (d : Dec) : ℤ := d.num / (10 : ℤ) ^ d.exp

/-- `relativedelta` construction and `datetime + relativedelta`
(line 716): calendar-aware month/year shift with day-of-month clamping,
then the exact day/hour/minute offset, rounded to whole microseconds like
`datetime.timedelta`. Non-integral years or months make `dateutil` fail
with an exception, modelled as `.pyValueError`. -/
def applyRel (spec : List (DKey × Dec)) (refDt : ℤ) : Except Err ℤ :=
  let getQ := fun (k : DKey) =>
    ((spec.find? (fun p => decide (p.1 = k))).map Prod.snd).getD ⟨0, 0⟩
  let years := getQ .years
  let months := getQ .months
  if years.isInt && months.isInt then
    let c := civilFromDays (dayOf refDt)
    let totalMonths : ℤ := c.1 * 12 + (c.2.1 - 1) + years.toInt * 12 + months.toInt
    let y2 := totalMonths.ediv 12
    let m2 := totalMonths.emod 12 + 1
    let d2 := min c.2.2 (daysInMonth y2 m2)
    let base := daysFromCivil y2 m2 d2 * usPerDay + todOf refDt
    let dd := getQ .days
    let ww := getQ .weeks
    let hh := getQ .hours
    let mm := getQ .minutes
    let e := dd.exp + ww.exp + hh.exp + mm.exp
    let n : ℤ :=
      (dd.num * (10 : ℤ) ^ (e - dd.exp) * 86400 + ww.num * (10 : ℤ) ^ (e - ww.exp) * 604800
        + hh.num * (10 : ℤ) ^ (e - hh.exp) * 3600 + mm.num * (10 : ℤ) ^ (e - mm.exp) * 60)
        * 1000000
    let deltaUs := (2 * n + (10 : ℤ) ^ e).ediv (2 * (10 : ℤ) ^ e)
    .ok (base + deltaUs)
  else .error .pyValueError

/-- Lines 705-717: raise queued duplicates, report no-match on an empty
specifier, otherwise apply the accumulated offsets. -/
def finishDuration (spec : List (DKey × Dec)) (dups : List (Str × Str)) (message : Str)
    (refDt : ℤ) : Except Err (Option (ℤ × Str)) :=
  if dups = [] then
    if spec = [] then .ok none
    else
      match applyRel spec refDt with
      | .error e => .error e
      | .ok dt => .ok (some (dt, message))
  else .error (mkDupError dups)

/-- `parse_duration` (lines 531-717). -/
def parse_duration (text : Str) (wasQuoted : Bool) (refDt : ℤ) :
    Except Err (Option (ℤ × Str)) :=
  if wasQuoted = true then
    let parts := pySplit text
    if parts.length % 2 = 1 then .error (.invalidTimeSpec text)
    else
      match strictLoop (strictPairs parts) [] [] with
      | .error e => .error e
      | .ok sd => finishDuration sd.1 sd.2 [] refDt
  else
    match heurLoop (text.length + 1) text initHState with
    | .error e => .error e
    | .ok st => finishDuration st.spec st.dups (extractMessageAfterTokens text st.tokens) refDt

/-! ## Orchestrator (`parse`, lines 117-205). -/

/-- Step 0 (lines 149-155): strip a leading tomorrow keyword. -/
def stripTomorrow (text : Str) : Str × Bool :=
  match TOMORROW_KEYWORDS.find? (fun k => k.isPrefixOf text) with
  | some k => (pyStrip (text.drop k.length), true)
  | none => (text, false)

/-- Steps 2-4 (lines 161-179): the resolver cascade, first success wins;
the duration resolver is skipped when the tomorrow flag is set. -/
def resolveCascade (timeSpec : Str) (isTom : Bool) (wasQuoted : Bool) (refDt : ℤ) :
    Except Err (Option (ℤ × Str)) :=
  match parse_day_part timeSpec isTom refDt with
  | some r => .ok (some r)
  | none =>
    match parse_timestamp timeSpec (if isTom then Mode.time else Mode.datetime) refDt with
    | .error e => .error e
    | .ok (some r) => .ok (some r)
    | .ok none =>
      if isTom = true then .ok none
      else parse_duration timeSpec wasQuoted refDt

/-- Step 6 (lines 198-201): the `strftime`/`strptime` round trip through
`"%Y-%m-%d %H:%M"` truncates seconds and microseconds. -/
def truncMin (dt : ℤ) : ℤ := dt.ediv usPerMinute * usPerMinute

/-- `parse` (lines 117-205). The success value keeps the source's
`Optional` shape for the datetime component. -/
def parse (text : Str) (refDt : ℤ) : Except Err (Option ℤ × Str) :=
  let afterTom := stripTomorrow (pyStrip text)
  match parse_reminder_message afterTom.1 with
  | .error e => .error e
  | .ok (timeSpec, quoted) =>
    match resolveCascade timeSpec afterTom.2 (quoted ≠ []) refDt with
    | .error e => .error e
    | .ok none => .error .unreadable
    | .ok (some (dt, remaining)) =>
      if quoted ≠ [] ∧ remaining ≠ [] then .error (.unreadableArg remaining)
      else if quoted = [] ∧ remaining = [] then .error .mustContainMessage
      else
        let dt2 :=
          if afterTom.2 = true ∧ dayOf dt < dayOf (refDt + usPerDay) then dt + usPerDay
          else dt
        .ok (some (truncMin dt2), if quoted ≠ [] then quoted else remaining)

/-! ## Supporting lemmas -/

theorem findIdx_quote_append (pre rest : Str) (h : '"' ∉ pre) :
    List.findIdx (· == '"') (pre ++ '"' :: rest) = pre.length := by
  induction pre with
  | nil => simp [List.findIdx_cons]
  | cons a l ih =>
    have ha : ¬ a = '"' := fun e => h (e ▸ List.mem_cons_self a l)
    have hl : '"' ∉ l := fun hm => h (List.mem_cons_of_mem a hm)
    have hb : (a == '"') = false := by simp [ha]
    simp [List.findIdx_cons, hb, ih hl]

/-! ## Claim C2 -/

/-- C2: the quoted-message extractor branches on the count of `"` in the
trimmed input. Zero quotes echo the text unchanged with no message; exactly
one quote is a terminal quoting error; with two or more quotes (decomposed
as `pre ++ quote ++ mid ++ quote ++ post` with quote-free `pre` and `post`,
so the two marked quotes are the first and the last), the message is the
substring strictly between the first and last quote, the time spec is the
trimmed text before the first quote, and a nonempty trimmed remainder after
the last quote is a terminal trailing-argument error. -/
theorem sam_c2_quote_extractor (text : Str) :
    ((pyStrip text).count '"' = 0 → parse_reminder_message text = .ok (text, [])) ∧
    ((pyStrip text).count '"' = 1 →
      parse_reminder_message text = .error (.notQuoted (pyStrip text))) ∧
    (∀ pre mid post, pyStrip text = pre ++ '"' :: (mid ++ '"' :: post) →
      '"' ∉ pre → '"' ∉ post →
      parse_reminder_message text =
        if pyStrip post ≠ [] then .error (.trailingAfterQuote (pyStrip post))
        else .ok (pyStrip pre, mid)) := by
  refine ⟨?_, ?_, ?_⟩
  · intro h0
    unfold parse_reminder_message
    simp [h0]
  · intro h1
    unfold parse_reminder_message
    simp [h1]
  · intro pre mid post hdec hpre hpost
    have hcnt : 2 ≤ (pyStrip text).count '"' := by
      rw [hdec]
      simp [List.count_append, List.count_cons]
      omega
    have hi : List.findIdx (· == '"') (pyStrip text) = pre.length := by
      rw [hdec]; exact findIdx_quote_append pre _ hpre
    have hrev : (pyStrip text).reverse =
        post.reverse ++ '"' :: (mid.reverse ++ '"' :: pre.reverse) := by
      rw [hdec]; simp
    have hpostrev : '"' ∉ post.reverse := by simpa using hpost
    have hj : List.findIdx (· == '"') (pyStrip text).reverse = post.length := by
      rw [hrev, findIdx_quote_append _ _ hpostrev, List.length_reverse]
    have hlen : (pyStrip text).length = pre.length + mid.length + post.length + 2 := by
      rw [hdec]; simp; omega
    have htake : (pyStrip text).take pre.length = pre := by
      rw [hdec]; exact List.take_left pre _
    have hdrop1 : (pyStrip text).drop (pre.length + 1) = mid ++ '"' :: post := by
      rw [hdec, show pre ++ '"' :: (mid ++ '"' :: post) =
        (pre ++ ['"']) ++ (mid ++ '"' :: post) by simp]
      exact List.drop_left' (by simp)
    have hdrop2 : (pyStrip text).drop (pre.length + mid.length + 1 + 1) = post := by
      rw [hdec, show pre ++ '"' :: (mid ++ '"' :: post) =
        (pre ++ '"' :: mid ++ ['"']) ++ post by simp]
      exact List.drop_left' (by simp; omega)
    unfold parse_reminder_message
    rw [if_neg (by omega), if_pos hcnt]
    dsimp only
    rw [hi, hj]
    rw [show (pyStrip text).length - 1 - post.length = pre.length + mid.length + 1 by omega]
    rw [htake, hdrop1, hdrop2]
    rw [show pre.length + mid.length + 1 - (pre.length + 1) = mid.length by omega]
    rw [List.take_left' rfl]

/-- Witness for C2: all three quote-count branches at concrete inputs. -/
theorem sam_c2_quote_extractor_witness :
    parse_reminder_message ("in 5 min hello".data) = .ok ("in 5 min hello".data, []) ∧
    parse_reminder_message ("5 min \"oops".data) = .error (.notQuoted ("5 min \"oops".data)) ∧
    parse_reminder_message ("5 min \"hi \"there\"\" x".data) =
      .error (.trailingAfterQuote ("x".data)) ∧
    parse_reminder_message ("5 min \"hi\"".data) = .ok ("5 min".data, "hi".data) := by
  refine ⟨(sam_c2_quote_extractor _).1 (by decide),
          (sam_c2_quote_extractor _).2.1 (by decide), ?_, ?_⟩
  · have h := (sam_c2_quote_extractor ("5 min \"hi \"there\"\" x".data)).2.2
      ("5 min ".data) ("hi \"there\"".data) (" x".data) (by decide) (by decide) (by decide)
    simpa using h
  · have h := (sam_c2_quote_extractor ("5 min \"hi\"".data)).2.2
      ("5 min ".data) ("hi".data) [] (by decide) (by decide) (by decide)
    simpa using h

/-! ## Claim C4 -/

/-- C4: when a part-of-day keyword prefix-matches the lower-cased time-spec
(the scan `findFirstKeyword` takes the first keyword in table iteration
order), the resolved date is two days ahead for tomorrow-flag plus
midnight, one day ahead when the tomorrow flag is set or the matched
time-of-day is not after the reference time-of-day (it has already passed,
equality included), and the reference date otherwise; the time is the
keyword's table time and the remaining text follows the keyword. In
particular `"noon lunch"` at 2024-03-01 10:00 parses to 2024-03-01 12:00
with message `"lunch"`. -/
theorem sam_c4_day_part (text : Str) (isTom : Bool) (refDt time1 : ℤ) (kw : Str) :
    (findFirstKeyword PART_OF_DAY_KEYWORDS (pyLower (pyLstrip text)) = some (time1, kw) →
      parse_day_part text isTom refDt =
        some ((if isTom = true ∧ time1 = 0 then dayOf refDt + 2
               else if isTom = true ∨ time1 ≤ todOf refDt then dayOf refDt + 1
               else dayOf refDt) * usPerDay + time1,
              pyLstrip ((pyLstrip text).drop kw.length))) ∧
    parse ("noon lunch".data) (mkDT 2024 3 1 10 0) =
      .ok (some (mkDT 2024 3 1 12 0), "lunch".data) := by
  constructor
  · intro h
    unfold parse_day_part
    dsimp only
    rw [h]
  · rfl

/-- Witness for C4: the day-part rule applied to `"evening snack"` with the
tomorrow flag set (one day ahead). -/
theorem sam_c4_day_part_witness :
    parse_day_part ("evening snack".data) true (mkDT 2024 3 1 10 0) =
      some ((dayOf (mkDT 2024 3 1 10 0) + 1) * usPerDay + 18 * 3600000000,
            "snack".data) := by
  have h := (sam_c4_day_part ("evening snack".data) true (mkDT 2024 3 1 10 0)
    (18 * 3600000000) ("evening".data)).1 (by decide)
  simpa using h

/-! ## Claim C5 -/

theorem mkTod_bounds (h m : ℕ) (t : ℤ) (he : mkTod h m = some t) :
    0 ≤ t ∧ t < usPerDay := by
  unfold mkTod at he
  split at he
  · rename_i hc
    injection he with he
    subst he
    unfold usPerMinute usPerDay
    omega
  · exact Option.noConfusion he

theorem strptimeTime_bounds (f : TFmt) (s : Str) (t : ℤ)
    (he : strptimeTime f s = some t) : 0 ≤ t ∧ t < usPerDay := by
  unfold strptimeTime read12 read12core at he
  repeat' split at he
  all_goals first
    | exact mkTod_bounds _ _ _ he
    | exact Option.noConfusion he

theorem parse_timestamp_not_past (text : Str) (mode : Mode) (refDt dt : ℤ) (rest : Str)
    (h : parse_timestamp text mode refDt = .ok (some (dt, rest))) : refDt ≤ dt := by
  have hdiv : usPerDay * dayOf refDt + todOf refDt = refDt := Int.ediv_add_emod refDt usPerDay
  have hlt : todOf refDt < usPerDay := Int.emod_lt_of_pos refDt (by decide)
  have hge : 0 ≤ todOf refDt := Int.emod_nonneg refDt (by decide)
  unfold parse_timestamp at h
  dsimp only at h
  repeat' split at h
  all_goals first
    | exact Except.noConfusion h
    | (simp only [Except.ok.injEq, Option.some.injEq, Prod.mk.injEq] at h
       first
         | exact Option.noConfusion h
         | (obtain ⟨h1, h2⟩ := h
            subst h1
            try (rename strptimeTime _ _ = some _ => heqT
                 obtain ⟨ht0, ht1⟩ := strptimeTime_bounds _ _ _ heqT)
            simp only [usPerDay, nineAM] at *
            all_goals try (rename ¬(_ ∧ _) => hAnd
                           rcases not_and_or.mp hAnd with hc | hc)
            all_goals omega))

theorem findFirstKeyword_mem (tbl : List (ℤ × List Str)) (txt : Str) (t : ℤ) (k : Str)
    (h : findFirstKeyword tbl txt = some (t, k)) : t ∈ tbl.map Prod.fst := by
  induction tbl with
  | nil => exact Option.noConfusion h
  | cons p rest ih =>
    rcases p with ⟨tv, kws⟩
    unfold findFirstKeyword at h
    split at h
    · injection h with h
      rw [Prod.mk.injEq] at h
      simp [h.1.symm]
    · simpa using Or.inr (ih h)

theorem parse_day_part_not_past (text : Str) (isTom : Bool) (refDt dt : ℤ) (rest : Str)
    (h : parse_day_part text isTom refDt = some (dt, rest)) : refDt ≤ dt := by
  have hdiv : usPerDay * dayOf refDt + todOf refDt = refDt := Int.ediv_add_emod refDt usPerDay
  have hlt : todOf refDt < usPerDay := Int.emod_lt_of_pos refDt (by decide)
  have hge : 0 ≤ todOf refDt := Int.emod_nonneg refDt (by decide)
  unfold parse_day_part at h
  dsimp only at h
  split at h
  · rename_i time1 kw heq
    have hmem := findFirstKeyword_mem _ _ _ _ heq
    have hb : 0 ≤ time1 ∧ time1 < usPerDay := by
      simp only [PART_OF_DAY_KEYWORDS, List.map_cons, List.map_nil, List.mem_cons,
        List.not_mem_nil, or_false] at hmem
      rcases hmem with rfl | rfl | rfl | rfl | rfl | rfl | rfl | rfl | rfl <;> decide
    simp only [Option.some.injEq, Prod.mk.injEq] at h
    obtain ⟨h1, h2⟩ := h
    subst h1
    simp only [usPerDay] at *
    split
    · omega
    · split
      · omega
      · simp only [not_or] at *
        omega
  · exact Option.noConfusion h


/-- C5: a successful result of the part-of-day resolver or of the
timestamp resolver is never earlier than the reference instant, and an
explicit time literal pinned to the reference date with a time not after
the reference time is a terminal error (shown at the concrete input
`"2024-03-01 10:00 hi"` with reference 2024-03-01 10:00, where the time
equals the reference time exactly). -/
theorem sam_c5_no_past :
    (∀ (text : Str) (mode : Mode) (refDt dt : ℤ) (rest : Str),
      parse_timestamp text mode refDt = .ok (some (dt, rest)) → refDt ≤ dt) ∧
    (∀ (text : Str) (isTom : Bool) (refDt dt : ℤ) (rest : Str),
      parse_day_part text isTom refDt = some (dt, rest) → refDt ≤ dt) ∧
    parse_timestamp ("2024-03-01 10:00 hi".data) .datetime (mkDT 2024 3 1 10 0) =
      .error .timeInPast :=
  ⟨fun text mode refDt dt rest h => parse_timestamp_not_past text mode refDt dt rest h,
   fun text isTom refDt dt rest h => parse_day_part_not_past text isTom refDt dt rest h,
   rfl⟩

/-- Witness for C5: both universal parts applied to concrete successful
resolutions (an explicit timestamp four days ahead, and an evening
part-of-day that rolls to the next day). -/
theorem sam_c5_no_past_witness :
    mkDT 2024 3 1 10 0 ≤ mkDT 2024 3 5 15 30 ∧ mkDT 2024 3 1 20 0 ≤ mkDT 2024 3 2 18 0 :=
  ⟨sam_c5_no_past.1 ("2024-03-05 15:30".data) .datetime (mkDT 2024 3 1 10 0)
     (mkDT 2024 3 5 15 30) [] rfl,
   sam_c5_no_past.2.1 ("evening".data) false (mkDT 2024 3 1 20 0) (mkDT 2024 3 2 18 0) [] rfl⟩

/-! ## Claim C1 -/

/-- C1 (counterexample): the input `"tomorrow"` alone at reference
2024-03-01 10:00 does not resolve to 2024-03-02 09:00 with an empty
message — `parse` raises the terminal unreadable-reminder error, because
no branch of `parse` synthesizes a default tomorrow-09:00 instant. -/
theorem sam_c1_counterexample :
    parse ("tomorrow".data) (mkDT 2024 3 1 10 0) = .error .unreadable := rfl

/-- C1 (amended): when the leading tomorrow keyword was stripped and
neither a part-of-day keyword nor the time-only timestamp resolver matches
the remaining time-spec, `parse` does not synthesize tomorrow 09:00; the
duration resolver is skipped because the tomorrow flag is set, and the
terminal unreadable-reminder error is raised. -/
theorem sam_c1_tomorrow_amended (text t2 ts q : Str) (refDt : ℤ)
    (h1 : stripTomorrow (pyStrip text) = (t2, true))
    (h2 : parse_reminder_message t2 = .ok (ts, q))
    (h3 : parse_day_part ts true refDt = none)
    (h4 : parse_timestamp ts .time refDt = .ok none) :
    parse text refDt = .error .unreadable := by
  unfold parse resolveCascade
  dsimp only
  rw [h1]
  dsimp only
  rw [h2]
  dsimp only
  rw [h3]
  simp only [reduceIte]
  rw [h4]

/-- Witness for C1: the German tomorrow keyword followed by plain message
text reaches the amended rule. -/
theorem sam_c1_tomorrow_amended_witness :
    parse ("morgen stuff".data) (mkDT 2024 3 1 10 0) = .error .unreadable :=
  sam_c1_tomorrow_amended ("morgen stuff".data) ("stuff".data) ("stuff".data) []
    (mkDT 2024 3 1 10 0) rfl rfl rfl rfl

/-! ## Claim C7 -/

/-- C7 (counterexample): `"evening"` at reference 2024-03-01 20:00 does not
parse successfully — the day-part resolves, but the resolver leaves no
message text and no quoted message exists, so `parse` raises the terminal
must-contain-a-message error. -/
theorem sam_c7_counterexample :
    parse ("evening".data) (mkDT 2024 3 1 20 0) = .error .mustContainMessage := rfl

/-- C7 (amended): at reference 2024-03-01 20:00 the part-of-day resolver
does map `"evening"` to 2024-03-02 18:00 (the evening already passed) with
an empty remainder, but the overall parse then fails with the terminal
must-contain-a-message error because the message is empty and unquoted. -/
theorem sam_c7_evening_amended :
    parse_day_part ("evening".data) false (mkDT 2024 3 1 20 0) =
      some (mkDT 2024 3 2 18 0, []) ∧
    parse ("evening".data) (mkDT 2024 3 1 20 0) = .error .mustContainMessage :=
  ⟨rfl, rfl⟩

/-! ## Claim C3 -/

/-- C3 (counterexample): the heuristic parse of `"1 day 2 days hello"`
does fail, but the raised duplicate-unit error references only the later
offending pair `("2", "days")` — the pair `("1", "day")` is not among the
pairs the error carries, contradicting the claim that the error references
both pairs. -/
theorem sam_c3_counterexample :
    parse ("1 day 2 days hello".data) (mkDT 2024 3 1 10 0) =
      .error (.duplicateOne ("2".data) ("days".data)) ∧
    ("1".data, "day".data) ∉ (Err.duplicateOne ("2".data) ("days".data)).refPairs :=
  ⟨rfl, by decide⟩

/-- C3 (amended): in either mode, processing a `(value, keyword)` pair
whose unit is already in the duration specifier queues a duplicate record
for that later mention instead of silently keeping either magnitude, and
whenever any duplicate records were queued the resolver raises a single
duplicate-unit error whose referenced pairs are exactly the queued later
mentions (so several duplications are all listed); concretely,
`"1 day 2 days 1 h 2 h x"` raises one error listing `("2", "days")` and
`("2", "h")`. -/
theorem sam_c3_duplicates_amended :
    (∀ (v kw : Str) (st : HState) (key : DKey),
      _parse_duration_keyword kw = .ok key →
      st.spec.any (fun p => decide (p.1 = key)) = true →
      ((heurStep v kw st).1).dups = st.dups ++ [(v, kw)]) ∧
    (∀ (v kw : Str) (rest : List (Str × Str)) (spec : List (DKey × Dec))
        (dups : List (Str × Str)) (q : Dec) (key : DKey),
      _parse_duration_value v = .ok q →
      _parse_duration_keyword kw = .ok key →
      spec.any (fun p => decide (p.1 = key)) = true →
      strictLoop ((v, kw) :: rest) spec dups = strictLoop rest spec (dups ++ [(v, kw)])) ∧
    (∀ (spec : List (DKey × Dec)) (dups : List (Str × Str)) (message : Str) (refDt : ℤ),
      dups ≠ [] →
      finishDuration spec dups message refDt = .error (mkDupError dups) ∧
      (mkDupError dups).refPairs = dups) ∧
    parse ("1 day 2 days 1 h 2 h x".data) (mkDT 2024 3 1 10 0) =
      .error (.duplicates [("2".data, "days".data), ("2".data, "h".data)]) := by
  refine ⟨?_, ?_, ?_, rfl⟩
  · intro v kw st key hk hdup
    simp only [heurStep, mkPendingRaise, hk, hdup, reduceIte]
    repeat' split
    all_goals rfl
  · intro v kw rest spec dups q key hv hk hdup
    conv_lhs => unfold strictLoop
    simp only [hv, hk, hdup, reduceIte]
  · intro spec dups message refDt h
    constructor
    · unfold finishDuration
      rw [if_neg h]
    · rcases dups with _ | ⟨p, rest⟩
      · exact absurd rfl h
      · rcases rest with _ | ⟨p2, rest2⟩
        · rcases p with ⟨a, b⟩
          rfl
        · rfl

/-- Witness for C3: the three hypothesis-bearing parts applied at
concrete states: a duplicate `days` mention queued by the heuristic step
and by the strict loop, and the finalizer raising it. -/
theorem sam_c3_duplicates_amended_witness :
    ((heurStep ("2".data) ("days".data)
        ⟨[(.days, ⟨1, 0⟩)], [], none, none, ["1".data, "day".data]⟩).1).dups =
      [("2".data, "days".data)] ∧
    strictLoop [("2".data, "days".data)] [(.days, ⟨1, 0⟩)] [] =
      strictLoop [] [(.days, ⟨1, 0⟩)] [("2".data, "days".data)] ∧
    finishDuration [(.days, ⟨2, 0⟩)] [("2".data, "days".data)] [] (mkDT 2024 3 1 10 0) =
      .error (mkDupError [("2".data, "days".data)]) := by
  refine ⟨?_, ?_, ?_⟩
  · have h := sam_c3_duplicates_amended.1 ("2".data) ("days".data)
      ⟨[(.days, ⟨1, 0⟩)], [], none, none, ["1".data, "day".data]⟩ .days rfl (by decide)
    simpa using h
  · exact sam_c3_duplicates_amended.2.1 ("2".data) ("days".data) [] [(.days, ⟨1, 0⟩)] []
      ⟨2, 0⟩ .days rfl rfl (by decide)
  · exact (sam_c3_duplicates_amended.2.2.1 [(.days, ⟨2, 0⟩)] [("2".data, "days".data)] []
      (mkDT 2024 3 1 10 0) (by decide)).1

/-! ## Claim C6 -/

/-- C6 (counterexample): in the heuristic loop, the front pair
`("0", "min")` has both components parse successfully (`float("0")`
succeeds and `min` is a table keyword) with no pending errors, yet the pair
is not accepted: Python's truthiness test treats the parsed value `0.0`
like a failed parse, the state is left unchanged, and the full parse of
`"0 min hello"` errors instead of resolving to the reference instant. -/
theorem sam_c6_counterexample :
    _parse_duration_value ("0".data) = .ok ⟨0, 0⟩ ∧
    _parse_duration_keyword ("min".data) = .ok .minutes ∧
    heurStep ("0".data) ("min".data) initHState = (initHState, .cont) ∧
    parse ("0 min hello".data) (mkDT 2024 3 1 10 0) = .error .unreadable :=
  ⟨rfl, rfl, rfl, rfl⟩

/-- C6 (amended): in the heuristic mode, an iteration whose front pair
parses successfully with a nonzero value and a table keyword, with no
pending error from the previous iteration and no duplicate unit, accepts
the pair into the duration specifier and its tokens; and the accepted
offsets feed the resolved instant: `"2 days 3 hours buy milk"` at
2024-03-01 10:00 resolves to 2024-03-03 13:00 with message `"buy milk"`. -/
theorem sam_c6_heuristic_amended :
    (∀ (v kw : Str) (st : HState) (q : Dec) (key : DKey),
      st.valueErr = none → st.keywordErr = none →
      _parse_duration_value v = .ok q → ¬ q.num = 0 →
      _parse_duration_keyword kw = .ok key →
      st.spec.any (fun p => decide (p.1 = key)) = false →
      heurStep v kw st =
        ({ st with spec := st.spec ++ [(key, q)], tokens := st.tokens ++ [v, kw] }, .cont)) ∧
    parse ("2 days 3 hours buy milk".data) (mkDT 2024 3 1 10 0) =
      .ok (some (mkDT 2024 3 3 13 0), "buy milk".data) := by
  refine ⟨?_, rfl⟩
  intro v kw st q key hve hke hv hq hk hdup
  simp only [heurStep, specInsert, hv, hk, hve, hke, hdup, hq, reduceIte, Bool.false_eq_true,
    if_false, if_neg hq]

/-- Witness for C6: the acceptance step applied to the pair
`("2", "days")` in the initial state. -/
theorem sam_c6_heuristic_amended_witness :
    heurStep ("2".data) ("days".data) initHState =
      ({ initHState with spec := [(.days, ⟨2, 0⟩)], tokens := ["2".data, "days".data] },
       .cont) := by
  have h := sam_c6_heuristic_amended.1 ("2".data) ("days".data) initHState ⟨2, 0⟩ .days
    rfl rfl rfl (by decide) rfl (by decide)
  simpa using h

/-! ## Claim C8 -/

/-- Truncation produces whole minutes (step 6 of `parse`). -/
theorem truncMin_emod (dt : ℤ) : truncMin dt % usPerMinute = 0 := Int.mul_emod_left _ _

/-- C8: with the tomorrow flag set (and the part-of-day resolver not
matching), `parse` invokes the timestamp resolver in time-only mode, and in
that mode any date literal match is a terminal error, in both match
orders: a date literal at the front errors (first conjunct, stated against
the whole `parse` pipeline), and a date literal after a leading time
literal errors as well (second conjunct). -/
theorem sam_c8_time_only_mode :
    (∀ (text t2 ts q : Str) (refDt : ℤ) (dStr : Str) (dFmt : DFmt),
      stripTomorrow (pyStrip text) = (t2, true) →
      parse_reminder_message t2 = .ok (ts, q) →
      parse_day_part ts true refDt = none →
      matchTsDate (pyStrip ts) = some (dStr, dFmt) →
      parse text refDt = .error .dateInTimeOnly) ∧
    (∀ (text : Str) (refDt : ℤ) (tStr : Str) (tFmt : TFmt) (time1 : ℤ)
        (dStr : Str) (dFmt : DFmt),
      matchTsDate (pyStrip text) = none →
      matchTsTime (pyStrip text) = some (tStr, tFmt) →
      strptimeTime tFmt tStr = some time1 →
      matchTsDate (pyLstrip ((pyStrip text).drop tStr.length)) = some (dStr, dFmt) →
      parse_timestamp text .time refDt = .error .dateInTimeOnly) := by
  constructor
  · intro text t2 ts q refDt dStr dFmt h1 h2 h3 h4
    have hts : parse_timestamp ts .time refDt = .error .dateInTimeOnly := by
      unfold parse_timestamp
      dsimp only
      rw [h4]
      exact rfl
    unfold parse resolveCascade
    dsimp only
    rw [h1]
    dsimp only
    rw [h2]
    dsimp only
    rw [h3]
    simp only [reduceIte]
    rw [hts]
  · intro text refDt tStr tFmt time1 dStr dFmt h1 h2 h3 h4
    unfold parse_timestamp
    dsimp only
    rw [h1, h2]
    dsimp only
    rw [h3]
    dsimp only
    rw [h4]
    dsimp only
    rfl

/-- Witness for C8: `"tomorrow 2024-03-05"` errors through the whole
pipeline, and `"10:30 2024-03-05"` errors in the time-only resolver. -/
theorem sam_c8_time_only_mode_witness :
    parse ("tomorrow 2024-03-05".data) (mkDT 2024 3 1 10 0) = .error .dateInTimeOnly ∧
    parse_timestamp ("10:30 2024-03-05".data) .time (mkDT 2024 3 1 10 0) =
      .error .dateInTimeOnly :=
  ⟨sam_c8_time_only_mode.1 ("tomorrow 2024-03-05".data) ("2024-03-05".data)
     ("2024-03-05".data) [] (mkDT 2024 3 1 10 0) ("2024-03-05".data) .Ymd rfl rfl rfl rfl,
   sam_c8_time_only_mode.2 ("10:30 2024-03-05".data) (mkDT 2024 3 1 10 0) ("10:30".data)
     .HM (mkDT 1970 1 1 10 30) ("2024-03-05".data) .Ymd rfl rfl rfl rfl⟩

/-! ## Claim C9 -/

/-- C9: whenever `parse` returns at all (rather than raising), the
returned pair is fully populated: the datetime component is `some`
instant — the annotated `(None, None)` outcome is unreachable because the
exhaustion of all resolvers raises instead — and that instant is truncated
to whole minutes (zero seconds and microseconds). -/
theorem sam_c9_no_none_result (text : Str) (refDt : ℤ) (od : Option ℤ) (msg : Str)
    (h : parse text refDt = .ok (od, msg)) :
    ∃ dt, od = some dt ∧ dt % usPerMinute = 0 := by
  unfold parse at h
  dsimp only at h
  repeat' split at h
  all_goals first
    | exact Except.noConfusion h
    | (simp only [Except.ok.injEq, Prod.mk.injEq] at h
       exact ⟨_, h.1.symm, truncMin_emod _⟩)

/-- Witness for C9: the successful parse of `"noon lunch"`. -/
theorem sam_c9_no_none_result_witness :
    ∃ dt, some (mkDT 2024 3 1 12 0) = some dt ∧ dt % usPerMinute = 0 :=
  sam_c9_no_none_result ("noon lunch".data) (mkDT 2024 3 1 10 0)
    (some (mkDT 2024 3 1 12 0)) ("lunch".data) rfl

/-! ## Claim C10 -/

/-- C10: an empty quoted message behaves like no quoting at all. First
conjunct: under an extraction that returns an empty quoted message, the
rest of the pipeline is exactly the unquoted one — in particular the
duration resolver runs with the heuristic flag (`wasQuoted = false`), and
an empty leftover message is the terminal must-contain-a-message error
rather than a successful empty message. Second conjunct: for any winning
resolver, an empty quoted message together with an empty leftover is that
same terminal error. -/
theorem sam_c10_empty_quoted :
    (∀ (text t2 ts : Str) (refDt : ℤ),
      stripTomorrow (pyStrip text) = (t2, false) →
      parse_reminder_message t2 = .ok (ts, []) →
      parse_day_part ts false refDt = none →
      parse_timestamp ts .datetime refDt = .ok none →
      parse text refDt =
        match parse_duration ts false refDt with
        | .error e => .error e
        | .ok none => .error .unreadable
        | .ok (some (dt, rem)) =>
          if rem = [] then .error .mustContainMessage
          else .ok (some (truncMin dt), rem)) ∧
    (∀ (text t2 ts : Str) (isTom : Bool) (refDt dt : ℤ),
      stripTomorrow (pyStrip text) = (t2, isTom) →
      parse_reminder_message t2 = .ok (ts, []) →
      resolveCascade ts isTom false refDt = .ok (some (dt, [])) →
      parse text refDt = .error .mustContainMessage) := by
  constructor
  · intro text t2 ts refDt h1 h2 h3 h4
    unfold parse resolveCascade
    dsimp only
    rw [h1]
    dsimp only
    rw [h2]
    simp only [ne_eq, decide_not, decide_True, decide_False, Bool.not_true, Bool.false_eq_true,
      if_false, not_true, false_and, true_and, eq_self_iff_true, reduceIte]
    rw [h3]
    dsimp only
    rw [h4]
  · intro text t2 ts isTom refDt dt h1 h2 h3
    unfold parse
    dsimp only
    rw [h1]
    dsimp only
    rw [h2]
    simp only [ne_eq, decide_not, decide_True, decide_False, Bool.not_true, Bool.false_eq_true,
      if_false, not_true, false_and, true_and, eq_self_iff_true, reduceIte]
    rw [h3]
    exact rfl

/-- Witness for C10: `5 min ""` runs the duration resolver heuristically
and errors for lack of a message; `tomorrow noon ""` errors the same way
through the part-of-day branch. -/
theorem sam_c10_empty_quoted_witness :
    parse ("5 min \"\"".data) (mkDT 2024 3 1 10 0) = .error .mustContainMessage ∧
    parse ("tomorrow noon \"\"".data) (mkDT 2024 3 1 10 0) = .error .mustContainMessage :=
  ⟨(sam_c10_empty_quoted.1 ("5 min \"\"".data) ("5 min \"\"".data) ("5 min".data)
      (mkDT 2024 3 1 10 0) rfl rfl rfl rfl).trans rfl,
   sam_c10_empty_quoted.2 ("tomorrow noon \"\"".data) ("noon \"\"".data) ("noon".data) true
     (mkDT 2024 3 1 10 0) (mkDT 2024 3 2 12 0) rfl rfl rfl⟩

end SAM
